import Mathlib

set_option maxRecDepth 40000

/-!
Verification of the tip-jar widget (src/src/components/TipJar.tsx).

The widget is a small client-side state machine around two external
capabilities: a wallet provider (connect / signAndSendTransaction) and a
ledger client (getBalance).  We embed:

* the JavaScript number arithmetic used for the lamports conversion
  (binary64, round-to-nearest-even), modelled exactly over ℚ;
* the big-step behaviour of the handleAction callback as a pure function
  from the provider snapshot and the outcomes of the awaited calls to the
  resulting widget state plus the provider call it issued;
* a small-step event machine for the whole widget (clicks, promise
  resolutions, balance ticks), whose suspension points are the two awaits,
  so that the intermediate statuses the UI can display are reachable
  states of the model.
-/

/-! ## Exact model of binary64 (JavaScript number) arithmetic

The source computes the transfer amount as
Math.floor(selectedAmount * LAMPORTS_PER_SOL) on IEEE-754 doubles.
We model a double as the rational it denotes and rounding as
round-to-nearest, ties-to-even, with a 53-bit significand.  The exponents
occurring in this program are far inside the normal range, so overflow and
subnormals cannot arise for the values we evaluate.
-/

/-- Floor of a rational, computed on the normalized numerator and
denominator so that it evaluates inside the kernel; equal to Int.floor by
the lemma mathFloor_eq_floor below. -/
def mathFloor (q : ℚ) : ℤ := q.num / (q.den : ℤ)

/-- The rational with numerator n and denominator 1, built without the
unary Int.cast so that it evaluates; equal to the cast by intToQ_eq_cast. -/
def intToQ (n : ℤ) : ℚ := mkRat n 1

/-- Round a rational to the nearest integer, ties to even.  The doubled
fractional part 2 * (x - floor x) is formed directly from the numerator
and denominator so the definition evaluates on large inputs. -/
def rne (x : ℚ) : ℤ :=
  let f := mathFloor x
  let r2 := mkRat (2 * (x.num - f * (x.den : ℤ))) x.den
  if r2 < 1 then f
  else if 1 < r2 then f + 1
  else if f % 2 = 0 then f else f + 1

/-- Halve a positive rational until it lies below 2, tracking the exponent. -/
def normUp : ℕ → ℚ → ℤ → ℚ × ℤ
  | 0, q, e => (q, e)
  | n + 1, q, e => if q < 2 then (q, e) else normUp n (q / 2) (e + 1)

/-- Double a positive rational until it reaches 1, tracking the exponent. -/
def normDown : ℕ → ℚ → ℤ → ℚ × ℤ
  | 0, q, e => (q, e)
  | n + 1, q, e => if 1 ≤ q then (q, e) else normDown n (q * 2) (e - 1)

/-- Write a positive rational as m * 2^e with m in the interval [1, 2).
The fuel bounds the exponent search at 100 binary digits either way, which
covers every magnitude this program computes (presets around 2^-7 up to
lamports counts around 2^27), far inside the binary64 normal range. -/
def frexpQ (q : ℚ) : ℚ × ℤ :=
  if q < 1 then normDown 100 q 0 else normUp 100 q 0

/-- Integer power of two as a rational, for signed exponents. -/
def twoZpow (e : ℤ) : ℚ :=
  if 0 ≤ e then (2 : ℚ) ^ e.toNat else 1 / (2 : ℚ) ^ (-e).toNat

/-- The binary64 value nearest to a rational (round to nearest, ties even). -/
def roundDouble (q : ℚ) : ℚ :=
  if q = 0 then 0
  else
    let s : ℚ := if q < 0 then -1 else 1
    let me := frexpQ |q|
    s * intToQ (rne (me.1 * (2 : ℚ) ^ 52)) * twoZpow (me.2 - 52)

/-- The double denoted by a decimal literal in the source. -/
def jsNum (q : ℚ) : ℚ := roundDouble q

/-- Double multiplication: exact product, rounded back to binary64. -/
def dmul (a b : ℚ) : ℚ := roundDouble (a * b)

/-- Double division: exact quotient, rounded back to binary64. -/
def ddiv (a b : ℚ) : ℚ := roundDouble (a / b)

/-! ## Configuration constants of the widget -/

/-- One entry of the TIP_AMOUNTS configuration list. -/
structure TipAmount where
  value : ℚ
  label : String
  emoji : String
  deriving DecidableEq

/-- The configured preset list; the literals 0.01, 0.05, 0.1 denote the
doubles nearest to 1/100, 5/100, 1/10. -/
def TIP_AMOUNTS : List TipAmount :=
  [{ value := jsNum (1/100), label := "Coffee", emoji := "☕" },
   { value := jsNum (5/100), label := "Pizza", emoji := "🍕" },
   { value := jsNum (1/10), label := "Party", emoji := "🎉" }]

/-- The fixed recipient address. -/
def TIP_RECIPIENT : String := "hij78MKbJSSs15qvkHWTDCtnmba2c1W4r1V22g5sD8w"

/-- LAMPORTS_PER_SOL, the subdivision factor (exactly representable). -/
def LAMPORTS_PER_SOL : ℚ := 1000000000

/-- The fee mode passed to connect. -/
def FEE_MODE : String := "paymaster"

/-! ## Widget state and provider interface -/

/-- The status enum of the widget. -/
inductive Status where
  | idle
  | connecting
  | confirming
  | sending
  | success
  | error
  deriving DecidableEq

/-- The useState fields of the component (selectedAmount, status, error,
txSignature, balance). -/
structure WidgetState where
  selectedAmount : ℚ
  status : Status
  error : Option String
  txSignature : Option String
  balance : Option ℚ
  deriving DecidableEq

/-- The provider fields read by the widget (isConnected, isLoading,
smartWalletPubkey, the latter as its base58 string). -/
structure ProviderSnapshot where
  isConnected : Bool
  isLoading : Bool
  smartWalletPubkey : Option String
  deriving DecidableEq

/-- A thrown JavaScript value: some message when it is an Error instance,
none otherwise. -/
def errMsg (e : Option String) : String := e.getD ("Something went wrong")

/-- One SystemProgram.transfer instruction as built by the widget. -/
structure TransferInstruction where
  fromPubkey : String
  toPubkey : String
  lamports : ℤ
  deriving DecidableEq

/-- The request object passed to signAndSendTransaction. -/
structure SignRequest where
  instructions : List TransferInstruction
  clusterSimulation : String
  deriving DecidableEq

/-- The provider call issued by one invocation of handleAction. -/
inductive ProviderCall where
  | connect (feeMode : String)
  | signAndSend (req : SignRequest)
  deriving DecidableEq

/-- The lamports amount computed from the selected amount:
Math.floor(selectedAmount * LAMPORTS_PER_SOL) in double arithmetic. -/
def lamportsOf (sel : ℚ) : ℤ := mathFloor (dmul sel LAMPORTS_PER_SOL)

/-- Big-step embedding of the handleAction callback: given the provider
snapshot and the outcomes the two awaited provider calls would have, it
returns the resulting widget state and the provider call issued (none when
no call is made).  It mirrors the source line by line: clear the error,
connect when not connected, silently return when connected without a
wallet key, otherwise build the transfer and sign-and-send; the catch
block maps any rejection to status error with the message of errMsg. -/
def handleAction (p : ProviderSnapshot) (connectResult : Except (Option String) Unit)
    (signResult : Except (Option String) String) (s : WidgetState) :
    WidgetState × Option ProviderCall :=
  let s0 := { s with error := none }
  if p.isConnected = false then
    match connectResult with
    | Except.ok _ => ({ s0 with status := Status.idle }, some (ProviderCall.connect FEE_MODE))
    | Except.error e =>
        ({ s0 with status := Status.error, error := some (errMsg e) },
         some (ProviderCall.connect FEE_MODE))
  else
    match p.smartWalletPubkey with
    | none => (s0, none)
    | some pk =>
        let req : SignRequest :=
          { instructions :=
              [{ fromPubkey := pk, toPubkey := TIP_RECIPIENT,
                 lamports := lamportsOf s.selectedAmount }],
            clusterSimulation := "devnet" }
        match signResult with
        | Except.ok sig =>
            ({ s0 with status := Status.success, txSignature := some sig },
             some (ProviderCall.signAndSend req))
        | Except.error e =>
            ({ s0 with status := Status.error, error := some (errMsg e) },
             some (ProviderCall.signAndSend req))

/-- The reset handler: back to idle, clearing error and txSignature. -/
def resetState (s : WidgetState) : WidgetState :=
  { s with status := Status.idle, error := none, txSignature := none }

/-- The explorer URL built for a transaction signature (source line 167). -/
def explorerLink (sig : String) : String :=
  "https://explorer.solana.com/tx/" ++ sig ++ "?cluster=devnet"

/-! ## Small-step event machine

The widget runs on the single-threaded browser event loop.  handleAction
suspends exactly twice (awaiting connect and awaiting
signAndSendTransaction); between a suspension and the next statement no
other event can interleave.  We model the observable interleavings with a
program counter: ready (no handler in flight), building (the synchronous
stretch from setStatus confirming up to the sign call; no other event is
enabled there), awaitConnect and awaitSign (suspended at the two awaits).
Click guards mirror the rendered UI: the main button fires only when the
form is shown and the button is not disabled; the reset button exists only
in the success view; the disconnect button whenever the wallet box is
rendered; balance reads whenever a wallet key is present (the effect
installs the 10 s interval exactly while smartWalletPubkey is non-null).
-/

/-- Program counter of the handleAction coroutine. -/
inductive Pc where
  | ready
  | building
  | awaitConnect
  | awaitSign
  deriving DecidableEq

/-- Full machine state: the widget state plus the provider fields the
component reads and the coroutine program counter. -/
structure MState where
  w : WidgetState
  isConnected : Bool
  isLoading : Bool
  smartWalletPubkey : Option String
  pc : Pc
  deriving DecidableEq

/-- The form view is rendered unless the success view is (source: the
success view requires status success and a non-null txSignature). -/
def formShown (m : MState) : Bool :=
  !(decide (m.w.status = Status.success) && m.w.txSignature.isSome)

/-- isButtonDisabled from the source: provider loading, or status one of
connecting, confirming, sending. -/
def isButtonDisabled (m : MState) : Bool :=
  m.isLoading || (decide (m.w.status = Status.connecting) ||
    decide (m.w.status = Status.confirming) ||
    decide (m.w.status = Status.sending))

/-- The events the widget reacts to: user clicks, resolutions of the two
awaited provider promises, and balance-poll completions. -/
inductive Event where
  | click
  | build
  | connectOk (addr : String)
  | connectFail (e : Option String)
  | signOk (sig : String)
  | signFail (e : Option String)
  | resetClick
  | selectClick (v : ℚ)
  | disconnectClick
  | fetchOk (bal : ℤ)
  | fetchFail (e : Option String)

/-- One observable step of the widget.  Each constructor is one atomic
stretch of source code between suspension points. -/
inductive Step : MState → Event → MState → Prop where
  | clickConnect (m : MState) :
      m.pc = Pc.ready → formShown m = true → isButtonDisabled m = false →
      m.isConnected = false →
      Step m Event.click
        { m with w := { m.w with error := none, status := Status.connecting },
                 pc := Pc.awaitConnect }
  | clickNoWallet (m : MState) :
      m.pc = Pc.ready → formShown m = true → isButtonDisabled m = false →
      m.isConnected = true → m.smartWalletPubkey = none →
      Step m Event.click { m with w := { m.w with error := none } }
  | clickTip (m : MState) (a : String) :
      m.pc = Pc.ready → formShown m = true → isButtonDisabled m = false →
      m.isConnected = true → m.smartWalletPubkey = some a →
      Step m Event.click
        { m with w := { m.w with error := none, status := Status.confirming },
                 pc := Pc.building }
  | buildSend (m : MState) :
      m.pc = Pc.building →
      Step m Event.build
        { m with w := { m.w with status := Status.sending }, pc := Pc.awaitSign }
  | connectOk (m : MState) (a : String) :
      m.pc = Pc.awaitConnect →
      Step m (Event.connectOk a)
        { m with w := { m.w with status := Status.idle },
                 isConnected := true, smartWalletPubkey := some a,
                 pc := Pc.ready }
  | connectFail (m : MState) (e : Option String) :
      m.pc = Pc.awaitConnect →
      Step m (Event.connectFail e)
        { m with w := { m.w with status := Status.error, error := some (errMsg e) },
                 pc := Pc.ready }
  | signOk (m : MState) (sig : String) :
      m.pc = Pc.awaitSign →
      Step m (Event.signOk sig)
        { m with w := { m.w with status := Status.success, txSignature := some sig },
                 pc := Pc.ready }
  | signFail (m : MState) (e : Option String) :
      m.pc = Pc.awaitSign →
      Step m (Event.signFail e)
        { m with w := { m.w with status := Status.error, error := some (errMsg e) },
                 pc := Pc.ready }
  | resetClick (m : MState) :
      m.w.status = Status.success → m.w.txSignature ≠ none → m.pc ≠ Pc.building →
      Step m Event.resetClick { m with w := resetState m.w }
  | selectClick (m : MState) (v : ℚ) :
      formShown m = true → v ∈ TIP_AMOUNTS.map TipAmount.value →
      m.pc ≠ Pc.building →
      Step m (Event.selectClick v) { m with w := { m.w with selectedAmount := v } }
  | disconnectClick (m : MState) :
      formShown m = true → m.isConnected = true → m.smartWalletPubkey ≠ none →
      m.pc ≠ Pc.building →
      Step m Event.disconnectClick
        { m with isConnected := false, smartWalletPubkey := none,
                 w := { m.w with balance := none } }
  | fetchOk (m : MState) (bal : ℤ) :
      m.smartWalletPubkey ≠ none → m.pc ≠ Pc.building →
      Step m (Event.fetchOk bal)
        { m with w := { m.w with balance := some (ddiv (intToQ bal) LAMPORTS_PER_SOL) } }
  | fetchFail (m : MState) (e : Option String) :
      m.smartWalletPubkey ≠ none → m.pc ≠ Pc.building →
      Step m (Event.fetchFail e) m

/-- The initial state of a freshly mounted widget: first preset selected,
idle, no error, no signature, no balance, disconnected. -/
def initMState : MState :=
  { w := { selectedAmount := (TIP_AMOUNTS.headD { value := 0, label := "", emoji := "" }).value,
           status := Status.idle, error := none, txSignature := none,
           balance := none },
    isConnected := false, isLoading := false, smartWalletPubkey := none,
    pc := Pc.ready }

/-- Reachability from the initial state. -/
inductive Reach : MState → Prop where
  | init : Reach initMState
  | step (m : MState) (e : Event) (n : MState) : Reach m → Step m e n → Reach n

/-- The structural invariant tying the program counter to the status, and
success to a recorded signature. -/
def PcInv (m : MState) : Prop :=
  (m.pc = Pc.awaitConnect → m.w.status = Status.connecting) ∧
  (m.pc = Pc.awaitSign → m.w.status = Status.sending) ∧
  (m.pc = Pc.building → m.w.status = Status.confirming ∧ m.smartWalletPubkey ≠ none) ∧
  (m.w.status = Status.confirming → m.pc = Pc.building) ∧
  (m.w.status = Status.success → m.w.txSignature ≠ none)

/-! ## Concrete states used in scenario runs

One execution of the widget: connect, tip, a rejected signature, a retry,
and separately a disconnect while a signature is pending.  Each state is
written as the exact successor produced by the corresponding Step
constructor, so the reachability proofs below are direct applications. -/

/-- After clicking the action button while disconnected. -/
def m_connecting : MState :=
  { initMState with
      w := { initMState.w with error := none, status := Status.connecting },
      pc := Pc.awaitConnect }

/-- After the connect promise rejects in m_connecting. -/
def m_connectErr : MState :=
  { m_connecting with
      w := { m_connecting.w with
             status := Status.error,
             error := some (errMsg (some ("Portal unreachable"))) },
      pc := Pc.ready }

/-- After the connect promise resolves with a wallet address. -/
def m_connected : MState :=
  { m_connecting with
      w := { m_connecting.w with status := Status.idle },
      isConnected := true, smartWalletPubkey := some ("walletA"),
      pc := Pc.ready }

/-- After clicking the action button while connected. -/
def m_confirming : MState :=
  { m_connected with
      w := { m_connected.w with error := none, status := Status.confirming },
      pc := Pc.building }

/-- After the synchronous stretch reaches the sign call. -/
def m_sending : MState :=
  { m_confirming with
      w := { m_confirming.w with status := Status.sending },
      pc := Pc.awaitSign }

/-- After the sign promise rejects with a user-rejection message. -/
def m_signErr : MState :=
  { m_sending with
      w := { m_sending.w with
             status := Status.error,
             error := some (errMsg (some ("User rejected"))) },
      pc := Pc.ready }

/-- After clicking the action button again straight from the error state. -/
def m_retry : MState :=
  { m_signErr with
      w := { m_signErr.w with error := none, status := Status.confirming },
      pc := Pc.building }

/-- After clicking the disconnect button while the sign call is pending. -/
def m_sendingNoWallet : MState :=
  { m_sending with
      isConnected := false, smartWalletPubkey := none,
      w := { m_sending.w with balance := none } }

/-- A widget state displaying an error message, used for the
connected-but-addressless scenario. -/
def s_boom : WidgetState :=
  { selectedAmount := jsNum (1/100), status := Status.error,
    error := some ("boom"), txSignature := none, balance := none }

/-- A provider snapshot that reports connected with a null address. -/
def prov_noPk : ProviderSnapshot :=
  { isConnected := true, isLoading := false, smartWalletPubkey := none }

/-- mathFloor agrees with the mathematical floor on ℚ. -/
theorem mathFloor_eq_floor (q : ℚ) : mathFloor q = ⌊q⌋ := Rat.floor_def.symm

/-- intToQ agrees with the canonical coercion from ℤ to ℚ. -/
theorem intToQ_eq_cast (n : ℤ) : intToQ n = (n : ℚ) := by
  simp [intToQ, mkRat, Rat.normalize_eq_mk', Rat.mk_den_one]


/-- Every reachable state satisfies the structural invariant PcInv. -/
theorem reach_pcInv (m : MState) (h : Reach m) : PcInv m := by
  induction h with
  | init => simp [PcInv, initMState]
  | step m e n hm hs ih =>
    cases hs <;>
      simp_all [PcInv, formShown, isButtonDisabled, resetState]

/-- The connecting state is reachable: click while disconnected. -/
theorem reach_m_connecting : Reach m_connecting :=
  Reach.step initMState Event.click m_connecting Reach.init
    (Step.clickConnect initMState rfl rfl rfl rfl)

/-- The connected idle state is reachable: the connect promise resolves. -/
theorem reach_m_connected : Reach m_connected :=
  Reach.step m_connecting (Event.connectOk ("walletA")) m_connected
    reach_m_connecting (Step.connectOk m_connecting ("walletA") rfl)

/-- The confirming state is reachable: click while connected. -/
theorem reach_m_confirming : Reach m_confirming :=
  Reach.step m_connected Event.click m_confirming reach_m_connected
    (Step.clickTip m_connected ("walletA") rfl rfl rfl rfl rfl)

/-- The sending state is reachable. -/
theorem reach_m_sending : Reach m_sending :=
  Reach.step m_confirming Event.build m_sending reach_m_confirming
    (Step.buildSend m_confirming rfl)

/-- The error state after a rejected signature is reachable. -/
theorem reach_m_signErr : Reach m_signErr :=
  Reach.step m_sending (Event.signFail (some ("User rejected"))) m_signErr
    reach_m_sending (Step.signFail m_sending (some ("User rejected")) rfl)

/-- A state that is still sending but has no wallet address is reachable:
the disconnect button stays clickable while the sign promise is pending. -/
theorem reach_m_sendingNoWallet : Reach m_sendingNoWallet :=
  Reach.step m_sending Event.disconnectClick m_sendingNoWallet reach_m_sending
    (Step.disconnectClick m_sending rfl rfl (by decide) (by decide))

/-- C1: for every preset p in the configured amount list (whose stored
values are the doubles of 0.01, 0.05 and 0.1), a submission with
selectedAmount = p passes to signAndSendTransaction a lamports amount
equal to round-toward-zero of p times LAMPORTS_PER_SOL = 10^9, computed
over the exact rational value of the preset. -/
theorem preset_lamports_eq_exact_floor :
    TIP_AMOUNTS.map TipAmount.value = [jsNum (1/100), jsNum (5/100), jsNum (1/10)] ∧
    ∀ p ∈ ([1/100, 5/100, 1/10] : List ℚ),
      ∀ (prov : ProviderSnapshot) (a : String) (cr : Except (Option String) Unit)
        (sr : Except (Option String) String) (s : WidgetState),
        prov.isConnected = true → prov.smartWalletPubkey = some a →
        s.selectedAmount = jsNum p →
        (handleAction prov cr sr s).2 = some (ProviderCall.signAndSend
          { instructions := [{ fromPubkey := a, toPubkey := TIP_RECIPIENT,
                               lamports := ⌊p * 1000000000⌋ }],
            clusterSimulation := "devnet" }) := by
  refine ⟨rfl, ?_⟩
  intro p hp prov a cr sr s hConn hPk hSel
  have hl : lamportsOf s.selectedAmount = ⌊p * 1000000000⌋ := by
    rw [hSel, ← mathFloor_eq_floor]
    fin_cases hp <;> with_unfolding_all decide
  cases sr <;> simp [handleAction, hConn, hPk, hl]

/-- C1 witness: the first preset, on a concrete state, yields exactly
10^7 lamports. -/
theorem preset_lamports_eq_exact_floor_witness :
    (handleAction { isConnected := true, isLoading := false,
                    smartWalletPubkey := some ("walletA") }
      (Except.ok ()) (Except.ok ("abc123")) initMState.w).2 =
      some (ProviderCall.signAndSend
        { instructions := [{ fromPubkey := "walletA", toPubkey := TIP_RECIPIENT,
                             lamports := ⌊(1/100 : ℚ) * 1000000000⌋ }],
          clusterSimulation := "devnet" }) :=
  preset_lamports_eq_exact_floor.2 (1/100) (by simp)
    { isConnected := true, isLoading := false, smartWalletPubkey := some ("walletA") }
    ("walletA") (Except.ok ()) (Except.ok ("abc123")) initMState.w rfl rfl rfl

/-- C2: while connected with a non-null address, a submission whose sign
promise resolves with the signature abc123 ends with status success and
txSignature abc123, and the explorer link built for it is
https://explorer.solana.com/tx/abc123?cluster=devnet. -/
theorem successful_submission_final_state
    (prov : ProviderSnapshot) (a : String) (cr : Except (Option String) Unit)
    (s : WidgetState)
    (hConn : prov.isConnected = true) (hPk : prov.smartWalletPubkey = some a) :
    (handleAction prov cr (Except.ok ("abc123")) s).1.status = Status.success ∧
    (handleAction prov cr (Except.ok ("abc123")) s).1.txSignature = some ("abc123") ∧
    explorerLink ("abc123") = "https://explorer.solana.com/tx/abc123?cluster=devnet" := by
  refine ⟨?_, ?_, rfl⟩ <;> simp [handleAction, hConn, hPk]

/-- C2 witness: the scenario at a concrete provider snapshot and state. -/
theorem successful_submission_final_state_witness :
    (handleAction { isConnected := true, isLoading := false,
                    smartWalletPubkey := some ("walletA") }
      (Except.ok ()) (Except.ok ("abc123")) initMState.w).1.status = Status.success ∧
    (handleAction { isConnected := true, isLoading := false,
                    smartWalletPubkey := some ("walletA") }
      (Except.ok ()) (Except.ok ("abc123")) initMState.w).1.txSignature = some ("abc123") ∧
    explorerLink ("abc123") = "https://explorer.solana.com/tx/abc123?cluster=devnet" :=
  successful_submission_final_state
    { isConnected := true, isLoading := false, smartWalletPubkey := some ("walletA") }
    ("walletA") (Except.ok ()) initMState.w rfl rfl

/-- C3: while connected with a non-null address, a rejected sign promise
ends with status error and errorMessage equal to the rejection message
when the thrown value carries one (an Error instance), and equal to the
generic fallback Something went wrong when it does not. -/
theorem sign_rejection_final_state
    (prov : ProviderSnapshot) (a : String) (cr : Except (Option String) Unit)
    (e : Option String) (s : WidgetState)
    (hConn : prov.isConnected = true) (hPk : prov.smartWalletPubkey = some a) :
    (handleAction prov cr (Except.error e) s).1.status = Status.error ∧
    (handleAction prov cr (Except.error e) s).1.error = some (errMsg e) ∧
    errMsg (some ("User rejected")) = "User rejected" ∧
    errMsg none = "Something went wrong" := by
  refine ⟨?_, ?_, rfl, rfl⟩ <;> simp [handleAction, hConn, hPk]

/-- C3 witness: the User rejected scenario at a concrete state. -/
theorem sign_rejection_final_state_witness :
    (handleAction { isConnected := true, isLoading := false,
                    smartWalletPubkey := some ("walletA") }
      (Except.ok ()) (Except.error (some ("User rejected"))) initMState.w).1.status =
        Status.error ∧
    (handleAction { isConnected := true, isLoading := false,
                    smartWalletPubkey := some ("walletA") }
      (Except.ok ()) (Except.error (some ("User rejected"))) initMState.w).1.error =
        some (errMsg (some ("User rejected"))) ∧
    errMsg (some ("User rejected")) = "User rejected" ∧
    errMsg none = "Something went wrong" :=
  sign_rejection_final_state
    { isConnected := true, isLoading := false, smartWalletPubkey := some ("walletA") }
    ("walletA") (Except.ok ()) (some ("User rejected")) initMState.w rfl rfl

/-- C4 counterexample: the claim that status enters Error only from
Sending is false — a rejected connect promise moves status from
Connecting to Error.  The step below is taken from a reachable state. -/
theorem error_entered_from_connecting_cex :
    Reach m_connecting ∧
    Step m_connecting (Event.connectFail (some ("Portal unreachable"))) m_connectErr ∧
    m_connecting.w.status = Status.connecting ∧
    m_connecting.w.status ≠ Status.sending ∧
    m_connectErr.w.status = Status.error :=
  ⟨reach_m_connecting,
   Step.connectFail m_connecting (some ("Portal unreachable")) rfl,
   rfl, by decide, rfl⟩

/-- C4 amended: in every reachable execution, status enters Success only
from Sending, and enters Error only from Sending or from Connecting (a
connect failure does move status into Error). -/
theorem status_entry_edges (m n : MState) (e : Event)
    (hr : Reach m) (hs : Step m e n) (hch : n.w.status ≠ m.w.status) :
    (n.w.status = Status.success → m.w.status = Status.sending) ∧
    (n.w.status = Status.error →
      m.w.status = Status.sending ∨ m.w.status = Status.connecting) := by
  have hinv := reach_pcInv m hr
  cases hs <;> simp_all [PcInv, resetState]

/-- C4 amended witness: instantiated on the connect-failure step. -/
theorem status_entry_edges_witness :
    (m_connectErr.w.status = Status.success →
      m_connecting.w.status = Status.sending) ∧
    (m_connectErr.w.status = Status.error →
      m_connecting.w.status = Status.sending ∨
      m_connecting.w.status = Status.connecting) :=
  status_entry_edges m_connecting m_connectErr
    (Event.connectFail (some ("Portal unreachable"))) reach_m_connecting
    (Step.connectFail m_connecting (some ("Portal unreachable")) rfl) (by decide)

/-- C5 counterexample: the claim that a new attempt can begin only from
Idle, and only after an explicit reset, is false — in the reachable
post-failure state the action button is enabled, and clicking it moves
status from Error straight to Confirming with no reset in the trace. -/
theorem new_attempt_from_error_cex :
    Reach m_signErr ∧ Step m_signErr Event.click m_retry ∧
    m_signErr.w.status = Status.error ∧ m_signErr.w.status ≠ Status.idle ∧
    m_retry.w.status = Status.confirming :=
  ⟨reach_m_signErr,
   Step.clickTip m_signErr ("walletA") rfl rfl rfl rfl rfl,
   rfl, by decide, rfl⟩

/-- C5 amended: a transition into Confirming can begin exactly from the
states where the action button is enabled, namely from Idle or from Error;
a submission failure therefore does not require reset before a new
attempt. -/
theorem attempt_entry_source (m n : MState) (e : Event)
    (hr : Reach m) (hs : Step m e n) (hc : n.w.status = Status.confirming) :
    m.w.status = Status.idle ∨ m.w.status = Status.error := by
  have hinv := reach_pcInv m hr
  cases hs <;> cases hq : m.w.status <;>
    simp_all [PcInv, resetState, formShown, isButtonDisabled,
      Option.isSome_iff_ne_none]

/-- C5 amended witness: instantiated on the click step out of Idle. -/
theorem attempt_entry_source_witness :
    m_connected.w.status = Status.idle ∨ m_connected.w.status = Status.error :=
  attempt_entry_source m_connected m_confirming Event.click reach_m_connected
    (Step.clickTip m_connected ("walletA") rfl rfl rfl rfl rfl) rfl

/-- C6: reset moves any state to Idle with transactionReference and
errorMessage cleared, is idempotent, and changes nothing else (the
selected amount and the cached balance are untouched). -/
theorem reset_clears_and_idempotent (s : WidgetState) :
    (resetState s).status = Status.idle ∧ (resetState s).error = none ∧
    (resetState s).txSignature = none ∧
    resetState (resetState s) = resetState s ∧
    (resetState s).selectedAmount = s.selectedAmount ∧
    (resetState s).balance = s.balance :=
  ⟨rfl, rfl, rfl, rfl, rfl, rfl⟩

/-- C7 counterexample: the claim that status is never Confirming or
Sending while the wallet address is null fails — the disconnect button is
rendered and enabled while a sign promise is pending, and clicking it
nulls the address while status is still Sending. -/
theorem sending_without_wallet_reachable_cex :
    Reach m_sendingNoWallet ∧
    m_sendingNoWallet.w.status = Status.sending ∧
    m_sendingNoWallet.smartWalletPubkey = none :=
  ⟨reach_m_sendingNoWallet, rfl, rfl⟩

/-- C7 amended: every transition that moves status into Confirming or
Sending happens from a state whose wallet address is non-null; the address
can only become null afterwards, through a disconnect. -/
theorem attempt_entry_requires_wallet (m n : MState) (e : Event)
    (hr : Reach m) (hs : Step m e n)
    (hst : n.w.status = Status.confirming ∨ n.w.status = Status.sending)
    (hch : n.w.status ≠ m.w.status) :
    m.smartWalletPubkey ≠ none := by
  have hinv := reach_pcInv m hr
  cases hs <;> simp_all [PcInv, resetState]

/-- C7 amended witness: instantiated on the click step into Confirming. -/
theorem attempt_entry_requires_wallet_witness :
    m_connected.smartWalletPubkey ≠ none :=
  attempt_entry_requires_wallet m_connected m_confirming Event.click
    reach_m_connected (Step.clickTip m_connected ("walletA") rfl rfl rfl rfl rfl)
    (Or.inl rfl) (by decide)

/-- C8: a failed balance read is a strict no-op on the widget state — the
cached balance, the status and the error message are all unchanged (the
failure is only logged) — and the very same read step is enabled again
afterwards, so the schedule keeps ticking. -/
theorem fetch_failure_preserves_state (m n : MState) (e : Option String)
    (hs : Step m (Event.fetchFail e) n) :
    n = m ∧ n.w.balance = m.w.balance ∧ n.w.status = m.w.status ∧
    n.w.error = m.w.error ∧ Step n (Event.fetchFail e) n := by
  cases hs with
  | fetchFail _ h1 h2 => exact ⟨rfl, rfl, rfl, rfl, Step.fetchFail m e h1 h2⟩

/-- C8 witness: a failed read in the connected idle state. -/
theorem fetch_failure_preserves_state_witness :
    m_connected = m_connected ∧
    m_connected.w.balance = m_connected.w.balance ∧
    m_connected.w.status = m_connected.w.status ∧
    m_connected.w.error = m_connected.w.error ∧
    Step m_connected (Event.fetchFail none) m_connected :=
  fetch_failure_preserves_state m_connected m_connected none
    (Step.fetchFail m_connected none (by decide) (by decide))

/-- C9 counterexample: a connected-but-addressless invocation is not a
complete no-op — it makes no provider call, but it does clear a previously
displayed error message, so the state changes. -/
theorem addressless_invocation_clears_error_cex :
    (handleAction prov_noPk (Except.ok ()) (Except.ok ("sig")) s_boom).1 ≠ s_boom ∧
    (handleAction prov_noPk (Except.ok ()) (Except.ok ("sig")) s_boom).2 = none ∧
    s_boom.error = some ("boom") ∧
    (handleAction prov_noPk (Except.ok ()) (Except.ok ("sig")) s_boom).1.error = none := by
  refine ⟨fun h => ?_, rfl, rfl, rfl⟩
  have h2 := congrArg WidgetState.error h
  simp [handleAction, prov_noPk, s_boom] at h2

/-- C9 amended: while the Session reports connected with a null address,
an invocation makes no provider call and changes no field except
errorMessage, which it sets to null. -/
theorem addressless_invocation_only_clears_error
    (prov : ProviderSnapshot) (cr : Except (Option String) Unit)
    (sr : Except (Option String) String) (s : WidgetState)
    (hConn : prov.isConnected = true) (hPk : prov.smartWalletPubkey = none) :
    handleAction prov cr sr s = ({ s with error := none }, none) := by
  simp [handleAction, hConn, hPk]

/-- C9 amended witness: instantiated on the error-displaying state. -/
theorem addressless_invocation_only_clears_error_witness :
    handleAction prov_noPk (Except.ok ()) (Except.ok ("sig")) s_boom =
      ({ s_boom with error := none }, none) :=
  addressless_invocation_only_clears_error prov_noPk (Except.ok ())
    (Except.ok ("sig")) s_boom rfl rfl

/-- C10: every invocation of the action handler clears errorMessage as its
first effect: whatever branch the click takes — connect, tip, or the
addressless no-op — the state reached at the first suspension point (or
return) has errorMessage null. -/
theorem invocation_clears_error_first (m n : MState)
    (hs : Step m Event.click n) : n.w.error = none := by
  cases hs <;> rfl

/-- C10 witness: the very first click of the trace. -/
theorem invocation_clears_error_first_witness : m_connecting.w.error = none :=
  invocation_clears_error_first initMState m_connecting
    (Step.clickConnect initMState rfl rfl rfl rfl)
